import Mathlib

/-!
Verification development for `kindler/retinanet/_retinanet.py`.

Tensors are modelled as lists of real numbers: a `(N, C)` tensor is a
`List (List ℝ)` of `N` rows with `C` channel values each.  Boolean-mask
indexing such as `cls_output[anchor_states != -1]`, which in the source
flattens the batch and anchor axes into one row axis, is modelled directly on
the flattened row list by `maskSelect`.  Modules whose code is imported from
elsewhere in the repository (`kindler.modules.FocalLoss`,
`kindler.modules.SmoothL1Loss`, `kindler.utils.anchors`) are not part of the
provided source; they are modelled from the spec and carry a doc comment
saying so.
-/

namespace Kindler

/-- Boolean-mask tensor indexing `xs[keep(states)]`: keep exactly the rows of
`xs` whose matching entry of `states` satisfies `keep`, as in the source's
`cls_output[anchor_states != -1]`. -/
def maskSelect {β : Type} (keep : Int → Bool) (states : List Int) (xs : List β) : List β :=
  ((states.zip xs).filter fun p => keep p.1).map Prod.snd

/-- Structural-recursion formulation of boolean-mask row selection, used in the
statements of the claims so that they are not syntactic restatements of
`maskSelect`. -/
def selectRows {β : Type} (keep : Int → Bool) : List Int → List β → List β
  | s :: ss, x :: xs => if keep s then x :: selectRows keep ss xs else selectRows keep ss xs
  | _, _ => []

/-- Modelled from the spec: one element of the smooth-L1 / Huber loss of
`kindler.modules.SmoothL1Loss` (that module is not under `src/`): quadratic
below the transition point `beta`, linear beyond it. -/
noncomputable def smoothL1Elt (beta d : ℝ) : ℝ :=
  if |d| < beta then d ^ 2 / (2 * beta) else |d| - beta / 2

/-- Modelled from the spec: mean reduction of an elementwise loss over paired
flattened elements.  The mean of an empty selection is `0` (in Lean,
`x / 0 = 0`), matching the spec's requirement that empty selections contribute
zero. -/
noncomputable def meanLoss (f : ℝ → ℝ → ℝ) (output target : List ℝ) : ℝ :=
  ((output.zip target).map fun q => f q.1 q.2).sum / ((output.zip target).length : ℝ)

/-- Modelled from the spec: the `SmoothL1Loss` module of `kindler.modules`
(not under `src/`) applied to two row tensors, with mean reduction over all
elements. -/
noncomputable def SmoothL1Loss (beta : ℝ) (output target : List (List ℝ)) : ℝ :=
  meanLoss (fun a b => smoothL1Elt beta (a - b)) output.flatten target.flatten

/-- Modelled from the spec: one focal-loss element,
`-alpha * (1 - p_t) ^ gamma * log p_t` where `p_t` is `p` for a positive
target and `1 - p` otherwise. -/
noncomputable def focalElt (alpha gamma p t : ℝ) : ℝ :=
  let pt := if t = 1 then p else 1 - p;
  -alpha * Real.rpow (1 - pt) gamma * Real.log pt

/-- Modelled from the spec: the `FocalLoss` module of `kindler.modules`
(not under `src/`), with mean reduction. -/
noncomputable def FocalLoss (alpha gamma : ℝ) : List ℝ → List ℝ → ℝ :=
  meanLoss (focalElt alpha gamma)

/-- Modelled from the spec: one element of `torch.nn.BCELoss`, binary cross
entropy on probabilities. -/
noncomputable def bceElt (p t : ℝ) : ℝ :=
  -(t * Real.log p + (1 - t) * Real.log (1 - p))

/-- Modelled from the spec: `torch.nn.BCELoss` with mean reduction. -/
noncomputable def BCELoss : List ℝ → List ℝ → ℝ :=
  meanLoss bceElt

/-- Result dictionary of `ComputeLosses.forward`: the keys `bg_loss`
(present only with a background predictor), `cls_loss`, `reg_loss` and
`total_loss`. -/
structure LossDict where
  bg_loss : Option ℝ
  cls_loss : ℝ
  reg_loss : ℝ
  total_loss : ℝ

/-- State of a `ComputeLosses` module after `__init__` (lines 346-365):
`reg_weight` and `use_bg_predictor` are stored on `self`; `cls_loss_fn` is the
chosen classification loss; `reg_beta` is the `beta` of the stored
`SmoothL1Loss` regression loss. -/
structure ComputeLosses where
  reg_weight : ℝ
  use_bg_predictor : Bool
  cls_loss_fn : List ℝ → List ℝ → ℝ
  reg_beta : ℝ

/-- `ComputeLosses.__init__` (lines 346-365): stores `reg_weight` and
`use_bg_predictor`, picks `FocalLoss(alpha, gamma)` or `BCELoss` as
`cls_loss_fn`, and `SmoothL1Loss(beta=reg_beta)` as the regression loss. -/
noncomputable def mkComputeLosses (use_focal_loss : Bool)
    (focal_alpha focal_gamma reg_weight reg_beta : ℝ)
    (use_bg_predictor : Bool) : ComputeLosses :=
  ⟨reg_weight, use_bg_predictor,
   if use_focal_loss then FocalLoss focal_alpha focal_gamma else BCELoss,
   reg_beta⟩

/-- `ComputeLosses.forward` (lines 367-413), faithful to the source, including
the regression mask `anchor_states != 1` of lines 406-407 (whose comment says
"Remove non positive anchors") and the direct addition
`total_loss += reg_loss` of line 411 (which does not use `reg_weight`).
`cls_output[..., -1]` is the last channel of each row and
`cls_output[..., :-1]` drops the last channel of each row; the boolean tensor
`anchor_states == 0` becomes rows of `1`/`0` values. -/
noncomputable def ComputeLosses.forward (m : ComputeLosses)
    (cls_output reg_output cls_target reg_target : List (List ℝ))
    (anchor_states : List Int) : LossDict :=
  if m.use_bg_predictor then
    let bg_output := maskSelect (fun s => s != -1) anchor_states
      (cls_output.map fun r => r.getLastD 0)
    let bg_target := maskSelect (fun s => s != -1) anchor_states
      (anchor_states.map fun s => if s = 0 then (1 : ℝ) else 0)
    let cls_outputP := maskSelect (fun s => s == 1) anchor_states
      (cls_output.map List.dropLast)
    let cls_targetP := maskSelect (fun s => s == 1) anchor_states cls_target
    let reg_outputS := maskSelect (fun s => s != 1) anchor_states reg_output
    let reg_targetS := maskSelect (fun s => s != 1) anchor_states reg_target
    let bg_loss := m.cls_loss_fn bg_output bg_target
    let cls_loss := m.cls_loss_fn cls_outputP.flatten cls_targetP.flatten
    let reg_loss := SmoothL1Loss m.reg_beta reg_outputS reg_targetS
    ⟨some bg_loss, cls_loss, reg_loss, bg_loss + cls_loss + reg_loss⟩
  else
    let cls_outputS := maskSelect (fun s => s != -1) anchor_states cls_output
    let cls_targetS := maskSelect (fun s => s != -1) anchor_states cls_target
    let reg_outputS := maskSelect (fun s => s != 1) anchor_states reg_output
    let reg_targetS := maskSelect (fun s => s != 1) anchor_states reg_target
    let cls_loss := m.cls_loss_fn cls_outputS.flatten cls_targetS.flatten
    let reg_loss := SmoothL1Loss m.reg_beta reg_outputS reg_targetS
    ⟨none, cls_loss, reg_loss, cls_loss + reg_loss⟩

/-- Logistic sigmoid, `torch.nn.Sigmoid` elementwise. -/
noncomputable def sigmoid (x : ℝ) : ℝ := 1 / (1 + Real.exp (-x))

/-- Bias value that the classifier initialization fills in (lines 63-69 and
190-198): `-log((1 - prior_prob) / prior_prob)`. -/
noncomputable def priorBias (prior_prob : ℝ) : ℝ := -Real.log ((1 - prior_prob) / prior_prob)

/-- One output channel of a 1x1 convolution at one spatial position: the bias
plus the weighted sum of the `nIn` input feature channels at that position. -/
noncomputable def conv1x1Out (weight : ℕ → ℕ → ℝ) (bias : ℕ → ℝ) (nIn : ℕ)
    (feat : ℕ → ℝ) (c : ℕ) : ℝ :=
  bias c + Finset.sum (Finset.range nIn) (fun i => weight c i * feat i)

/-- Output element of a `ClassificationHead` right after `__init__`
(lines 19-75): `feat` is the (arbitrary) output of the preceding conv stack at
some spatial position, the final 1x1 conv has every weight filled with `0` and
every bias filled with `priorBias prior_prob`, and a sigmoid follows.  The
final permute/reshape of `forward` (line 75) only rearranges elements, so
every element of the head output has this form. -/
noncomputable def classificationHeadInitOut (prior_prob : ℝ) (nIn : ℕ) (feat : ℕ → ℝ)
    (c : ℕ) : ℝ :=
  sigmoid (conv1x1Out (fun _ _ => 0) (fun _ => priorBias prior_prob) nIn feat c)

/-- State recorded by `RegressionHead.__init__` (lines 102-126) that the
claims use: `total_num_bbox` is 4, or `4 * num_classes` with class-specific
boxes. -/
structure RegressionHead where
  total_num_bbox : ℕ

/-- `RegressionHead.__init__` (lines 82-126): `assert num_classes is not None`
(line 106) fires when `use_class_specific_bbox` is requested without
`num_classes`; the constructor failure is modelled by `none`. -/
def mkRegressionHead (num_classes : Option ℕ) (use_class_specific_bbox : Bool) :
    Option RegressionHead :=
  if use_class_specific_bbox then
    match num_classes with
    | none => none
    | some k => some ⟨4 * k⟩
  else some ⟨4⟩

/-- State recorded by `CombinedHead.__init__` (lines 160-201) that the claims
use: `total_num_classes`, `total_num_bbox` and the channel `split_point`. -/
structure CombinedHead where
  total_num_classes : ℕ
  total_num_bbox : ℕ
  split_point : ℕ

/-- `CombinedHead.__init__` (lines 138-201).  With `num_classes = None` the
constructor raises (the `assert num_classes is not None` of line 168 when
`use_class_specific_bbox`, otherwise the arithmetic on `None` for
`total_num_classes` and `split_point`); constructor failure is modelled by
`none`.  `split_point = num_anchors * total_num_classes` (line 171). -/
def mkCombinedHead (num_anchors : ℕ) (num_classes : Option ℕ)
    (use_class_specific_bbox use_bg_predictor : Bool) : Option CombinedHead :=
  match num_classes with
  | none => none
  | some k =>
    let tc := k + (if use_bg_predictor then 1 else 0)
    some ⟨tc, 4 * (if use_class_specific_bbox then k else 1), num_anchors * tc⟩

/-- Channel split of `CombinedHead.forward` (lines 203-210) at one spatial
position: channels below `split_point` pass through the sigmoid as the
classification output, the remaining channels are returned unchanged as the
regression output.  The permute/reshape only rearranges elements, so the
channel vector at one position captures the split. -/
noncomputable def combinedForwardSplit (split_point : ℕ) (out : List ℝ) :
    List ℝ × List ℝ :=
  ((out.take split_point).map sigmoid, out.drop split_point)

/-- In-place slice fill `head[-1].weight[:split_point].data.fill_(0.0)` of
`CombinedHead.__init__` (lines 193-197): the weight after initialization,
given the default-initialized weight `w0`. -/
def combinedInitWeight (split_point : ℕ) (w0 : ℕ → ℕ → ℝ) (c i : ℕ) : ℝ :=
  if c < split_point then 0 else w0 c i

/-- In-place slice fill `head[-1].bias[:split_point].data.fill_(...)` of
`CombinedHead.__init__` (lines 194-198): the bias after initialization, given
the default-initialized bias `b0`. -/
noncomputable def combinedInitBias (split_point : ℕ) (prior_prob : ℝ) (b0 : ℕ → ℝ)
    (c : ℕ) : ℝ :=
  if c < split_point then priorBias prior_prob else b0 c

/-- Axis-aligned box `(x1, y1, x2, y2)`. -/
structure Box where
  x1 : ℚ
  y1 : ℚ
  x2 : ℚ
  y2 : ℚ

/-- Ground-truth box together with its integer class label. -/
structure Annot where
  box : Box
  label : ℕ

/-- Modelled from the spec: intersection-over-union of two boxes, used by the
target assignment of `kindler/utils/anchors.py` (not under `src/`). -/
def iou (a b : Box) : ℚ :=
  let iw := max 0 (min a.x2 b.x2 - max a.x1 b.x1)
  let iht := max 0 (min a.y2 b.y2 - max a.y1 b.y1)
  let inter := iw * iht
  let areaA := (a.x2 - a.x1) * (a.y2 - a.y1)
  let areaB := (b.x2 - b.x1) * (b.y2 - b.y1)
  inter / (areaA + areaB - inter)

/-- Index scan for `argmaxIdx`: strict comparison keeps the first occurrence
of the maximum, reproducing the first-occurrence tie-break of the spec. -/
def argmaxFrom : List ℚ → ℕ → ℕ → ℚ → ℕ
  | [], _, best, _ => best
  | x :: xs, i, best, bv =>
    if bv < x then argmaxFrom xs (i + 1) i x else argmaxFrom xs (i + 1) best bv

/-- Index of the first maximal element of a list (`argmax` with
first-occurrence tie-break), `0` on the empty list. -/
def argmaxIdx : List ℚ → ℕ
  | [] => 0
  | x :: xs => argmaxFrom xs 1 0 x

/-- Modelled from the spec: per-anchor work of `anchor_targets_bbox`: compute
the IoU of the anchor against every ground-truth box, take max and first
argmax, derive the tri-state label from the two thresholds, a one-hot
classification row for positive anchors, and the matched box. -/
def assignOne (anns : List Annot) (num_classes : ℕ) (positive_overlap negative_overlap : ℚ)
    (a : Box) : List ℚ × Box × Int :=
  let overlaps := anns.map fun g => iou a g.box
  let j := argmaxIdx overlaps
  let mo := overlaps.getD j 0
  let matched := anns.getD j ⟨⟨0, 0, 0, 0⟩, 0⟩
  let state : Int := if positive_overlap ≤ mo then 1 else if mo < negative_overlap then 0 else -1
  let cls := if state = 1 then
      (List.range num_classes).map fun cIdx => if cIdx = matched.label then (1 : ℚ) else 0
    else List.replicate num_classes 0
  (cls, matched.box, state)

/-- Modelled from the spec: `anchor_targets_bbox` of `kindler/utils/anchors.py`
(not under `src/`).  With zero ground-truth boxes every anchor is negative with
all-zero classification target and zero box; otherwise each anchor is assigned
by `assignOne`.  The spec does not say how `use_class_specific_bbox` changes
the per-anchor row layout ("appropriately indexed"), and no claim depends on
it; the row count per anchor is one in either case, which is all that is used
here. -/
def anchor_targets_bbox (anchors : List Box) (anns : List Annot) (num_classes : ℕ)
    (use_class_specific_bbox : Bool) (positive_overlap negative_overlap : ℚ) :
    List (List ℚ) × List Box × List Int :=
  if anns.isEmpty then
    (anchors.map fun _ => List.replicate num_classes 0,
     anchors.map fun _ => ⟨0, 0, 0, 0⟩,
     anchors.map fun _ => (0 : Int))
  else
    let per := anchors.map (assignOne anns num_classes positive_overlap negative_overlap)
    (per.map fun t => t.1, per.map fun t => t.2.1, per.map fun t => t.2.2)

/-- Modelled from the spec: `bbox_transform` of `kindler/utils/anchors.py`
(not under `src/`), the BoxCodec encode: per matched anchor/box pair the four
normalized offsets `(dx_center, dy_center, dw, dh)`, each standardized by the
caller-supplied `mean` and `std`. -/
noncomputable def bbox_transform (anchors gt_boxes : List Box) (mean std : ℚ) :
    List (List ℝ) :=
  (anchors.zip gt_boxes).map fun p =>
    let a := p.1
    let g := p.2
    let aw : ℝ := (a.x2 : ℝ) - (a.x1 : ℝ)
    let ah : ℝ := (a.y2 : ℝ) - (a.y1 : ℝ)
    let acx : ℝ := ((a.x1 : ℝ) + (a.x2 : ℝ)) / 2
    let acy : ℝ := ((a.y1 : ℝ) + (a.y2 : ℝ)) / 2
    let gw : ℝ := (g.x2 : ℝ) - (g.x1 : ℝ)
    let gh : ℝ := (g.y2 : ℝ) - (g.y1 : ℝ)
    let gcx : ℝ := ((g.x1 : ℝ) + (g.x2 : ℝ)) / 2
    let gcy : ℝ := ((g.y1 : ℝ) + (g.y2 : ℝ)) / 2
    [((gcx - acx) / aw - (mean : ℝ)) / (std : ℝ),
     ((gcy - acy) / ah - (mean : ℝ)) / (std : ℝ),
     (Real.log (gw / aw) - (mean : ℝ)) / (std : ℝ),
     (Real.log (gh / ah) - (mean : ℝ)) / (std : ℝ)]

/-- State of a `ComputeTargets` module after `__init__` (lines 290-305). -/
structure ComputeTargets where
  num_classes : ℕ
  use_class_specific_bbox : Bool
  regression_mean : ℚ
  regression_std : ℚ
  positive_overlap : ℚ
  negative_overlap : ℚ

/-- `ComputeTargets.forward` (lines 307-337): every image of the batch is
evaluated against the same `anchors`; per image `anchor_targets_bbox` and then
`bbox_transform` run, and the per-image results are stacked along a new
leading batch axis (the outer list). -/
noncomputable def ComputeTargets.forward (m : ComputeTargets)
    (annotations_batch : List (List Annot)) (anchors : List Box) :
    List (List (List ℚ)) × List (List (List ℝ)) × List (List Int) :=
  let per := annotations_batch.map fun anns =>
    let t := anchor_targets_bbox anchors anns m.num_classes m.use_class_specific_bbox
      m.positive_overlap m.negative_overlap
    (t.1, bbox_transform anchors t.2.1 m.regression_mean m.regression_std, t.2.2)
  (per.map fun t => t.1, per.map fun t => t.2.1, per.map fun t => t.2.2)

/-- Concrete classification-loss function used to instantiate the universally
quantified claims about `ComputeLosses.forward` on concrete inputs. -/
noncomputable def sampleClsFn : List ℝ → List ℝ → ℝ := fun o t => o.sum + 2 * t.sum

/-- Concrete `ComputeLosses` state with a background predictor. -/
noncomputable def sampleLossesBg : ComputeLosses := ⟨1, true, sampleClsFn, 11 / 100⟩

/-- Concrete `ComputeLosses` state without a background predictor. -/
noncomputable def sampleLossesNoBg : ComputeLosses := ⟨1, false, sampleClsFn, 11 / 100⟩

/-- Concrete default-initialized final-layer weight used to instantiate the
frame claim about the `CombinedHead` initialization. -/
noncomputable def sampleW0 : ℕ → ℕ → ℝ := fun c i => (c : ℝ) + 2 * (i : ℝ)

/-- Concrete default-initialized final-layer bias used to instantiate the
frame claim about the `CombinedHead` initialization. -/
noncomputable def sampleB0 : ℕ → ℝ := fun c => (c : ℝ) + 5

theorem maskSelect_eq_selectRows {β : Type} (keep : Int → Bool) (st : List Int) (xs : List β) :
    maskSelect keep st xs = selectRows keep st xs := by
  induction st generalizing xs with
  | nil => simp [maskSelect, selectRows]
  | cons s ss ih =>
    cases xs with
    | nil => simp [maskSelect, selectRows]
    | cons x xs =>
      by_cases h : keep s <;>
        simp [maskSelect, selectRows, h, List.filter_cons, ← ih xs]

theorem maskSelect_map_states {β : Type} (keep : Int → Bool) (f : Int → β) (st : List Int) :
    maskSelect keep st (st.map f) = (st.filter keep).map f := by
  induction st with
  | nil => simp [maskSelect]
  | cons s ss ih =>
    by_cases h : keep s <;>
      simp [maskSelect, List.filter_cons, h, ← ih]

theorem maskSelect_map_rows {β γ : Type} (keep : Int → Bool) (g : β → γ) (st : List Int)
    (xs : List β) :
    maskSelect keep st (xs.map g) = (maskSelect keep st xs).map g := by
  induction st generalizing xs with
  | nil => simp [maskSelect]
  | cons s ss ih =>
    cases xs with
    | nil => simp [maskSelect]
    | cons x xs =>
      by_cases h : keep s <;>
        simpa [maskSelect, List.filter_cons, h, List.map_map] using ih xs

theorem anchor_targets_bbox_len1 (anchors : List Box) (anns : List Annot) (num_classes : ℕ)
    (use_csb : Bool) (pos neg : ℚ) :
    (anchor_targets_bbox anchors anns num_classes use_csb pos neg).1.length
      = anchors.length := by
  unfold anchor_targets_bbox
  split <;> simp

theorem anchor_targets_bbox_len2 (anchors : List Box) (anns : List Annot) (num_classes : ℕ)
    (use_csb : Bool) (pos neg : ℚ) :
    (anchor_targets_bbox anchors anns num_classes use_csb pos neg).2.1.length
      = anchors.length := by
  unfold anchor_targets_bbox
  split <;> simp

theorem anchor_targets_bbox_len3 (anchors : List Box) (anns : List Annot) (num_classes : ℕ)
    (use_csb : Bool) (pos neg : ℚ) :
    (anchor_targets_bbox anchors anns num_classes use_csb pos neg).2.2.length
      = anchors.length := by
  unfold anchor_targets_bbox
  split <;> simp

theorem bbox_transform_length (anchors gt_boxes : List Box) (mean std : ℚ)
    (h : gt_boxes.length = anchors.length) :
    (bbox_transform anchors gt_boxes mean std).length = anchors.length := by
  simp [bbox_transform, h]

theorem map_length_eq_replicate {γ δ : Type} (f : γ → List δ) (l : List γ) (n : ℕ)
    (h : ∀ x, (f x).length = n) :
    l.map (fun x => (f x).length) = List.replicate l.length n := by
  induction l with
  | nil => rfl
  | cons a l ih => simp [h, ih, List.replicate_succ]

/-- Claim C1 (code bug): the source intends (per its own comment "Remove non
positive anchors" and the spec) the regression loss to range over positive
anchors only, but the mask `anchor_states != 1` of lines 406-407 keeps the
non-positive anchors instead.  Evaluated with the default construction
(`use_focal_loss=True, alpha=0.25, gamma=2, reg_weight=1, beta=0.11,
use_bg_predictor=False`): a single anchor with state `0` (negative) yields
`reg_loss = 189/800`, which drops to `0` when that anchor's prediction is
changed to match the target — so a non-positive anchor does contribute — while
the same differing prediction at an anchor with state `1` (positive) yields
`reg_loss = 0` — a positive anchor contributes nothing. -/
theorem claim1_reg_loss_uses_nonpositive_anchors :
    ((mkComputeLosses true (1 / 4) 2 1 (11 / 100) false).forward
        [[]] [[1, 0, 0, 0]] [[]] [[0, 0, 0, 0]] [0]).reg_loss = 189 / 800
    ∧ ((mkComputeLosses true (1 / 4) 2 1 (11 / 100) false).forward
        [[]] [[0, 0, 0, 0]] [[]] [[0, 0, 0, 0]] [0]).reg_loss = 0
    ∧ ((mkComputeLosses true (1 / 4) 2 1 (11 / 100) false).forward
        [[]] [[1, 0, 0, 0]] [[]] [[0, 0, 0, 0]] [1]).reg_loss = 0
    ∧ (0 : ℝ) < 189 / 800 := by
  refine ⟨?_, ?_, ?_, by norm_num⟩ <;>
    simp [ComputeLosses.forward, mkComputeLosses, maskSelect, SmoothL1Loss, meanLoss,
      smoothL1Elt] <;> norm_num

/-- Claim C2 (code bug): with no positive anchor (two anchors, both state `0`)
the regression loss returned by `ComputeLosses.forward` under the default
construction is `389/1600`, not the `0.0` the claim requires, because the
inverted mask of lines 406-407 keeps the non-positive anchors. -/
theorem claim2_reg_loss_nonzero_without_positives :
    ((([0, 0] : List Int).all fun s => s != 1) = true)
    ∧ ((mkComputeLosses true (1 / 4) 2 1 (11 / 100) false).forward
        [[], []] [[2, 0, 0, 0], [0, 0, 0, 0]] [[], []] [[0, 0, 0, 0], [0, 0, 0, 0]]
        [0, 0]).reg_loss = 389 / 1600
    ∧ (0 : ℝ) < 389 / 1600 := by
  refine ⟨by decide, ?_, by norm_num⟩
  simp [ComputeLosses.forward, mkComputeLosses, maskSelect, SmoothL1Loss, meanLoss, smoothL1Elt]
  norm_num

/-- Claim C3 (code bug): line 411 adds the regression loss to the total loss
without the `reg_weight` factor stored at construction (line 357).  With
`reg_weight = 2` and an input whose classification selection is empty
(`cls_loss = 0`), the code returns `total_loss = 189/800`, strictly below
the claimed `total_cls_loss + reg_weight * reg_loss = 189/400`. -/
theorem claim3_total_loss_ignores_reg_weight :
    ((mkComputeLosses true (1 / 4) 2 2 (11 / 100) false).forward
        [[1 / 2]] [[1, 0, 0, 0]] [[1]] [[0, 0, 0, 0]] [-1]).total_loss = 189 / 800
    ∧ ((mkComputeLosses true (1 / 4) 2 2 (11 / 100) false).forward
        [[1 / 2]] [[1, 0, 0, 0]] [[1]] [[0, 0, 0, 0]] [-1]).cls_loss
      + 2 * ((mkComputeLosses true (1 / 4) 2 2 (11 / 100) false).forward
        [[1 / 2]] [[1, 0, 0, 0]] [[1]] [[0, 0, 0, 0]] [-1]).reg_loss = 189 / 400
    ∧ ((mkComputeLosses true (1 / 4) 2 2 (11 / 100) false).forward
        [[1 / 2]] [[1, 0, 0, 0]] [[1]] [[0, 0, 0, 0]] [-1]).total_loss
      < ((mkComputeLosses true (1 / 4) 2 2 (11 / 100) false).forward
        [[1 / 2]] [[1, 0, 0, 0]] [[1]] [[0, 0, 0, 0]] [-1]).cls_loss
      + 2 * ((mkComputeLosses true (1 / 4) 2 2 (11 / 100) false).forward
        [[1 / 2]] [[1, 0, 0, 0]] [[1]] [[0, 0, 0, 0]] [-1]).reg_loss := by
  refine ⟨?_, ?_, ?_⟩ <;>
    (simp [ComputeLosses.forward, mkComputeLosses, maskSelect, SmoothL1Loss, FocalLoss,
      meanLoss, smoothL1Elt]; norm_num)

/-- Claim C4: with `use_bg_predictor` on, `ComputeLosses.forward` computes the
background loss over exactly the non-ignore anchors (the last channel of each
kept row as output, target `1` iff the anchor state is `0`), computes the
foreground classification loss only over the positive anchors using the class
channels with the last (background) channel dropped, and the classification
contribution to the total is `bg_loss + cls_loss` (the total being that plus
the regression loss). -/
theorem claim4_bg_predictor_branch (m : ComputeLosses) (hbg : m.use_bg_predictor = true)
    (cls_output reg_output cls_target reg_target : List (List ℝ))
    (anchor_states : List Int) :
    ((m.forward cls_output reg_output cls_target reg_target anchor_states).bg_loss
        = some (m.cls_loss_fn
            (selectRows (fun s => s != -1) anchor_states (cls_output.map fun r => r.getLastD 0))
            ((anchor_states.filter fun s => s != -1).map fun s => if s = 0 then (1 : ℝ) else 0)))
    ∧ ((m.forward cls_output reg_output cls_target reg_target anchor_states).cls_loss
        = m.cls_loss_fn
            (((selectRows (fun s => s == 1) anchor_states cls_output).map List.dropLast).flatten)
            ((selectRows (fun s => s == 1) anchor_states cls_target).flatten))
    ∧ ((m.forward cls_output reg_output cls_target reg_target anchor_states).total_loss
        = ((m.forward cls_output reg_output cls_target reg_target anchor_states).bg_loss).getD 0
          + (m.forward cls_output reg_output cls_target reg_target anchor_states).cls_loss
          + (m.forward cls_output reg_output cls_target reg_target anchor_states).reg_loss) := by
  simp only [ComputeLosses.forward, hbg, if_true]
  refine ⟨?_, ?_, rfl⟩
  · rw [maskSelect_eq_selectRows, maskSelect_map_states]
  · rw [maskSelect_map_rows, maskSelect_eq_selectRows, maskSelect_eq_selectRows]

theorem claim4_bg_predictor_branch_witness :
    ((sampleLossesBg.forward [[1, 2], [3, 4]] [[5]] [[6], [7]] [[8]] [0, 1]).bg_loss
        = some (sampleLossesBg.cls_loss_fn
            (selectRows (fun s => s != -1) [0, 1]
              (([[1, 2], [3, 4]] : List (List ℝ)).map fun r => r.getLastD 0))
            ((([0, 1] : List Int).filter fun s => s != -1).map
              fun s => if s = 0 then (1 : ℝ) else 0)))
    ∧ ((sampleLossesBg.forward [[1, 2], [3, 4]] [[5]] [[6], [7]] [[8]] [0, 1]).cls_loss
        = sampleLossesBg.cls_loss_fn
            (((selectRows (fun s => s == 1) [0, 1]
              ([[1, 2], [3, 4]] : List (List ℝ))).map List.dropLast).flatten)
            ((selectRows (fun s => s == 1) [0, 1] ([[6], [7]] : List (List ℝ))).flatten))
    ∧ ((sampleLossesBg.forward [[1, 2], [3, 4]] [[5]] [[6], [7]] [[8]] [0, 1]).total_loss
        = ((sampleLossesBg.forward [[1, 2], [3, 4]] [[5]] [[6], [7]] [[8]] [0, 1]).bg_loss).getD 0
          + (sampleLossesBg.forward [[1, 2], [3, 4]] [[5]] [[6], [7]] [[8]] [0, 1]).cls_loss
          + (sampleLossesBg.forward [[1, 2], [3, 4]] [[5]] [[6], [7]] [[8]] [0, 1]).reg_loss) :=
  claim4_bg_predictor_branch sampleLossesBg rfl [[1, 2], [3, 4]] [[5]] [[6], [7]] [[8]] [0, 1]

/-- Claim C5: without a background predictor, `ComputeLosses.forward` drops
every ignore-state anchor (state `-1`) from both the classification prediction
and the classification target before applying the classification loss, so
ignore anchors contribute nothing to `cls_loss`; no background loss is
produced and the total is `cls_loss` plus the regression loss. -/
theorem claim5_ignore_anchors_dropped (m : ComputeLosses) (hbg : m.use_bg_predictor = false)
    (cls_output reg_output cls_target reg_target : List (List ℝ))
    (anchor_states : List Int) :
    ((m.forward cls_output reg_output cls_target reg_target anchor_states).bg_loss = none)
    ∧ ((m.forward cls_output reg_output cls_target reg_target anchor_states).cls_loss
        = m.cls_loss_fn
            ((selectRows (fun s => s != -1) anchor_states cls_output).flatten)
            ((selectRows (fun s => s != -1) anchor_states cls_target).flatten))
    ∧ ((m.forward cls_output reg_output cls_target reg_target anchor_states).total_loss
        = (m.forward cls_output reg_output cls_target reg_target anchor_states).cls_loss
          + (m.forward cls_output reg_output cls_target reg_target anchor_states).reg_loss) := by
  simp only [ComputeLosses.forward, hbg, Bool.false_eq_true, if_false]
  refine ⟨trivial, ?_, trivial⟩
  rw [maskSelect_eq_selectRows, maskSelect_eq_selectRows]

theorem claim5_ignore_anchors_dropped_witness :
    ((sampleLossesNoBg.forward [[1], [2]] [[3]] [[4], [5]] [[6]] [-1, 0]).bg_loss = none)
    ∧ ((sampleLossesNoBg.forward [[1], [2]] [[3]] [[4], [5]] [[6]] [-1, 0]).cls_loss
        = sampleLossesNoBg.cls_loss_fn
            ((selectRows (fun s => s != -1) [-1, 0] ([[1], [2]] : List (List ℝ))).flatten)
            ((selectRows (fun s => s != -1) [-1, 0] ([[4], [5]] : List (List ℝ))).flatten))
    ∧ ((sampleLossesNoBg.forward [[1], [2]] [[3]] [[4], [5]] [[6]] [-1, 0]).total_loss
        = (sampleLossesNoBg.forward [[1], [2]] [[3]] [[4], [5]] [[6]] [-1, 0]).cls_loss
          + (sampleLossesNoBg.forward [[1], [2]] [[3]] [[4], [5]] [[6]] [-1, 0]).reg_loss) :=
  claim5_ignore_anchors_dropped sampleLossesNoBg rfl [[1], [2]] [[3]] [[4], [5]] [[6]] [-1, 0]

/-- Claim C6: immediately after construction of a `ClassificationHead` with
prior probability `prior_prob` strictly between 0 and 1, every element of the
head output equals `prior_prob`, for any input (any conv-stack feature vector
`feat`, any number of input channels and any output channel): the final
weights are zero and the bias is `-log((1 - prior_prob)/prior_prob)`, whose
sigmoid is `prior_prob`. -/
theorem claim6_initial_output_is_prior_prob (prior_prob : ℝ) (h0 : 0 < prior_prob)
    (h1 : prior_prob < 1) (nIn : ℕ) (feat : ℕ → ℝ) (c : ℕ) :
    classificationHeadInitOut prior_prob nIn feat c = prior_prob := by
  have hq : (0 : ℝ) < (1 - prior_prob) / prior_prob := div_pos (by linarith) h0
  unfold classificationHeadInitOut conv1x1Out sigmoid priorBias
  rw [show (Finset.sum (Finset.range nIn) fun i => (0 : ℝ) * feat i) = 0 from by simp]
  rw [add_zero, neg_neg, Real.exp_log hq]
  rw [div_eq_iff (by positivity)]
  field_simp

theorem claim6_initial_output_is_prior_prob_witness :
    (0 : ℝ) < 1 / 2 ∧ (1 / 2 : ℝ) < 1
    ∧ classificationHeadInitOut (1 / 2) 0 (fun _ => 0) 0 = 1 / 2 :=
  ⟨by norm_num, by norm_num,
   claim6_initial_output_is_prior_prob (1 / 2) (by norm_num) (by norm_num) 0 (fun _ => 0) 0⟩

/-- Claim C7: `ComputeTargets.forward` evaluates every image of the batch
against the same anchor sequence and stacks the per-image results along a new
leading batch axis whose size is the number of images; per image, the number
of classification-target rows, regression-target rows and anchor-state entries
all equal the number of anchors. -/
theorem claim7_target_shapes (m : ComputeTargets) (annotations_batch : List (List Annot))
    (anchors : List Box) :
    ((m.forward annotations_batch anchors).1.length = annotations_batch.length
      ∧ (m.forward annotations_batch anchors).2.1.length = annotations_batch.length
      ∧ (m.forward annotations_batch anchors).2.2.length = annotations_batch.length)
    ∧ (m.forward annotations_batch anchors).1.map List.length
        = List.replicate annotations_batch.length anchors.length
    ∧ (m.forward annotations_batch anchors).2.1.map List.length
        = List.replicate annotations_batch.length anchors.length
    ∧ (m.forward annotations_batch anchors).2.2.map List.length
        = List.replicate annotations_batch.length anchors.length := by
  refine ⟨⟨by simp [ComputeTargets.forward], by simp [ComputeTargets.forward],
    by simp [ComputeTargets.forward]⟩, ?_, ?_, ?_⟩ <;>
    simp only [ComputeTargets.forward, List.map_map, Function.comp] <;>
    refine map_length_eq_replicate _ _ _ fun anns => ?_
  · exact anchor_targets_bbox_len1 anchors anns m.num_classes m.use_class_specific_bbox
      m.positive_overlap m.negative_overlap
  · exact bbox_transform_length anchors _ m.regression_mean m.regression_std
      (anchor_targets_bbox_len2 anchors anns m.num_classes m.use_class_specific_bbox
        m.positive_overlap m.negative_overlap)
  · exact anchor_targets_bbox_len3 anchors anns m.num_classes m.use_class_specific_bbox
      m.positive_overlap m.negative_overlap

/-- Claim C8: `CombinedHead` splits its final output at the channel offset
`split_point = num_anchors * total_num_classes` fixed at construction: channel
`j` of the classification output is the sigmoid of channel `j` of the conv
output when `j < split_point` (and absent otherwise), and channel `k` of the
regression output is channel `split_point + k` of the conv output, with no
sigmoid applied. -/
theorem claim8_combined_split (num_anchors num_classes : ℕ) (use_csb use_bg : Bool)
    (out : List ℝ) (j k : ℕ) :
    ((mkCombinedHead num_anchors (some num_classes) use_csb use_bg).getD ⟨0, 0, 0⟩).split_point
        = num_anchors * (num_classes + if use_bg then 1 else 0)
    ∧ (combinedForwardSplit
          ((mkCombinedHead num_anchors (some num_classes) use_csb use_bg).getD
            ⟨0, 0, 0⟩).split_point out).1[j]?
        = (if j < ((mkCombinedHead num_anchors (some num_classes) use_csb use_bg).getD
            ⟨0, 0, 0⟩).split_point then (out[j]?).map sigmoid else none)
    ∧ (combinedForwardSplit
          ((mkCombinedHead num_anchors (some num_classes) use_csb use_bg).getD
            ⟨0, 0, 0⟩).split_point out).2[k]?
        = out[((mkCombinedHead num_anchors (some num_classes) use_csb use_bg).getD
            ⟨0, 0, 0⟩).split_point + k]? := by
  refine ⟨by simp [mkCombinedHead], ?_, ?_⟩
  · by_cases hj : j < ((mkCombinedHead num_anchors (some num_classes) use_csb
        use_bg).getD ⟨0, 0, 0⟩).split_point <;>
      simp [combinedForwardSplit, List.getElem?_take, hj]
  · simp [combinedForwardSplit, List.getElem?_drop]

/-- Claim C9: constructing a `RegressionHead` or a `CombinedHead` with
`use_class_specific_bbox` and no `num_classes` fails in the constructor (the
model returns `none`, so no constructed head exists for a forward pass), while
the corresponding well-formed configurations construct successfully. -/
theorem claim9_eager_config_error (num_anchors k : ℕ) (use_bg : Bool) :
    mkRegressionHead none true = none
    ∧ mkCombinedHead num_anchors none true use_bg = none
    ∧ (mkRegressionHead (some k) true).isSome = true
    ∧ (mkRegressionHead none false).isSome = true
    ∧ (mkCombinedHead num_anchors (some k) true use_bg).isSome = true := by
  refine ⟨rfl, rfl, rfl, rfl, ?_⟩
  simp [mkCombinedHead]

/-- Claim C10: the prior-prob initialization of `CombinedHead.__init__` writes
only the first `split_point` output channels of the final convolution; at any
channel `c` at or beyond `split_point` of a constructed head, the weight row
and the bias entry keep their default-initialized values `w0`/`b0`. -/
theorem claim10_init_frame (num_anchors num_classes : ℕ) (use_csb use_bg : Bool)
    (prior_prob : ℝ) (w0 : ℕ → ℕ → ℝ) (b0 : ℕ → ℝ) (ch : CombinedHead) (c i : ℕ)
    (_hch : mkCombinedHead num_anchors (some num_classes) use_csb use_bg = some ch)
    (hc : ch.split_point ≤ c) :
    combinedInitWeight ch.split_point w0 c i = w0 c i
    ∧ combinedInitBias ch.split_point prior_prob b0 c = b0 c := by
  constructor <;> simp [combinedInitWeight, combinedInitBias, Nat.not_lt.mpr hc]

theorem claim10_init_frame_witness :
    combinedInitWeight 1 sampleW0 2 0 = sampleW0 2 0
    ∧ combinedInitBias 1 (1 / 2) sampleB0 2 = sampleB0 2 :=
  claim10_init_frame 1 1 false false (1 / 2) sampleW0 sampleB0 ⟨1, 4, 1⟩ 2 0 rfl (by norm_num)

end Kindler
